import Mathlib

/-!
Shallow embedding of the SQLite-browser application (`session_manager.py`,
`utils/database.py`, `modules/file_uploader.py`, `modules/sql_editor.py`,
`modules/exporter.py`) and proofs of its specified properties.

The relational backend (sqlite3 + pandas) is opaque to the application, so it
is modelled as an abstract `Engine` over an abstract data state `σ`: the
application code only ever calls `pd.read_sql_query` (a read returning a table
frame) and `cursor.execute` / `conn.commit` (a write returning a row count).
A sqlite connection is modelled as its committed and uncommitted data views.
-/

namespace SqliteBrowser

/-- A scalar cell of a table frame (sqlite value reaching pandas). -/
inductive Value where
  | null : Value
  | int : Int → Value
  | str : String → Value
deriving Repr, DecidableEq

/-- A pandas DataFrame as it is used by the application: ordered named
columns and ordered rows ("table frame" in the spec). -/
structure DataFrame where
  columns : List String
  rows : List (List Value)
deriving Repr, DecidableEq

/-- Python `str.strip()`: drop leading and trailing whitespace. -/
def pyStrip (s : String) : String :=
  String.mk (((s.data.dropWhile Char.isWhitespace).reverse.dropWhile Char.isWhitespace).reverse)

/-- Python `str.upper()` on ASCII SQL text: uppercase each character. -/
def pyUpper (s : String) : String :=
  String.mk (s.data.map Char.toUpper)

/-- Python `str.startswith(pre)`. -/
def pyStartswith (s pre : String) : Bool :=
  pre.data.isPrefixOf s.data

/-- The first SQL keyword of a statement text: the maximal alphabetic run at
the start, after stripping surrounding whitespace and uppercasing (the spec's
"first keyword, after stripping leading/trailing whitespace and ignoring
case"). -/
def firstKeyword (s : String) : String :=
  String.mk ((pyUpper (pyStrip s)).data.takeWhile Char.isAlpha)

/-- An open sqlite connection: the committed database state and the state as
seen through the connection (including any uncommitted writes).
`conn.commit()` copies `uncommitted` into `committed`. -/
structure Conn (σ : Type) where
  committed : σ
  uncommitted : σ
deriving Repr, DecidableEq

/-- The opaque SQL backend: `read_sql_query` is `pd.read_sql_query` (evaluate
a query against the connection's view, returning a table frame or raising),
`cursor_execute` is `cursor.execute` (run a statement, returning the updated
data view and `cursor.rowcount`, which is `-1` for statements such as CREATE
or DROP). -/
structure Engine (σ : Type) where
  read_sql_query : σ → String → Except String DataFrame
  cursor_execute : σ → String → Except String (σ × Int)

/-- `utils/database.py::execute_query`: uppercase the stripped text; if it
starts with `SELECT`, read through pandas and return the frame unchanged;
otherwise run the statement through a cursor, commit, and return a one-cell
message frame built from `cursor.rowcount`. Failures are re-raised with the
`Error executing query:` prefix. -/
def execute_query (e : Engine σ) (conn : Conn σ) (query : String) :
    Except String (DataFrame × Conn σ) :=
  let query_upper := pyUpper (pyStrip query)
  if pyStartswith query_upper "SELECT" then
    match e.read_sql_query conn.uncommitted query with
    | .ok df => .ok (df, conn)
    | .error msg => .error ("Error executing query: " ++ msg)
  else
    match e.cursor_execute conn.uncommitted query with
    | .ok (s2, rowcount) =>
      if 0 ≤ rowcount then
        .ok (⟨["message"],
              [[.str ("Query executed successfully. Rows affected: " ++ toString rowcount)]]⟩,
             ⟨s2, s2⟩)
      else
        .ok (⟨["message"], [[.str "Query executed successfully."]]⟩, ⟨s2, s2⟩)
    | .error msg => .error ("Error executing query: " ++ msg)

/-- `utils/database.py::get_table_preview`: read
`SELECT * FROM {table_name} LIMIT {limit}` through pandas; failures are
re-raised with a table-specific prefix. -/
def get_table_preview (e : Engine σ) (conn : Conn σ) (table_name : String) (limit : Int) :
    Except String DataFrame :=
  let query := "SELECT * FROM " ++ table_name ++ " LIMIT " ++ toString limit
  match e.read_sql_query conn.uncommitted query with
  | .ok df => .ok df
  | .error msg =>
    .error ("Error getting preview for table '" ++ table_name ++ "': " ++ msg)

/-- A row of `sqlite_master` as read by `get_table_list` (object name and
object type). -/
structure MasterEntry where
  name : String
  type : String
deriving Repr, DecidableEq

/-- The sqlite predicate `name LIKE 'sqlite_%'` with the default
case-insensitive LIKE: `sqlite` literally, then `_` matching exactly one
character, then `%` matching anything — i.e. the lowercased name starts with
`sqlite` and has at least 7 characters. -/
def likeSqliteInternal (name : String) : Bool :=
  "sqlite".data.isPrefixOf (name.data.map Char.toLower) && decide (7 ≤ name.data.length)

/-- The catalog query inside `get_table_list`
(`SELECT name FROM sqlite_master WHERE type='table' AND name NOT LIKE
'sqlite_%' ORDER BY name`) evaluated over the `sqlite_master` rows. -/
def sqlite_master_tables (entries : List MasterEntry) : List String :=
  List.insertionSort (fun a b => a ≤ b)
    ((entries.filter (fun r => r.type == "table" && !likeSqliteInternal r.name)).map
      (fun r => r.name))

/-- `utils/database.py::get_table_list`: run the catalog query; any failure of
the lookup is swallowed and the empty list returned. The lookup outcome (the
`sqlite_master` rows, or the raised error) is the function's input. -/
def get_table_list (lookup : Except String (List MasterEntry)) : List String :=
  match lookup with
  | .ok entries => sqlite_master_tables entries
  | .error _ => []

/-- One `query_history` entry as built by `add_to_query_history`. -/
structure HistoryEntry where
  query : String
  timestamp : Nat
  success : Bool
  rows_returned : Nat
  time : String
deriving Repr, DecidableEq

/-- A value stored in the `preferences` dict (int, string or boolean). -/
inductive PrefValue where
  | int : Int → PrefValue
  | str : String → PrefValue
  | bool : Bool → PrefValue
deriving Repr, DecidableEq

/-- The `preferences` dict: insertion-ordered keyed values. -/
abbrev Preferences := List (String × PrefValue)

/-- The defaults installed by `init_session_state`. -/
def defaultPreferences : Preferences :=
  [("rows_per_page", .int 100), ("theme", .str "light"), ("auto_run_queries", .bool false)]

/-- Python `key in prefs` for a dict. -/
def prefsContains (prefs : Preferences) (key : String) : Bool :=
  prefs.any (fun kv => kv.1 == key)

/-- Python `prefs[key] = value` for a key already present: replace the value
in the existing slot, keeping dict order. -/
def prefsSet (prefs : Preferences) (key : String) (value : PrefValue) : Preferences :=
  match prefs with
  | [] => []
  | kv :: rest => if kv.1 == key then (key, value) :: rest else kv :: prefsSet rest key value

/-- Python `prefs[key]` lookup (first matching key). -/
def prefsGet (prefs : Preferences) (key : String) : Option PrefValue :=
  (prefs.find? (fun kv => kv.1 == key)).map (fun kv => kv.2)

/-- `session_manager.py::update_preference`: mutate and return `True` when
the key already exists, otherwise return `False` and change nothing. -/
def update_preference (prefs : Preferences) (key : String) (value : PrefValue) :
    Bool × Preferences :=
  if prefsContains prefs key then (true, prefsSet prefs key value)
  else (false, prefs)

/-- `session_manager.py::add_to_query_history`: build the entry from the wall
clock (`now`, with `nowText` its `%H:%M:%S` rendering), insert it at the
front, and truncate to the first 50 entries when the list exceeds 50. -/
def add_to_query_history (now : Nat) (nowText : String) (history : List HistoryEntry)
    (query : String) (success : Bool) (rows_returned : Nat) : List HistoryEntry :=
  let history_entry : HistoryEntry :=
    { query := query, timestamp := now, success := success,
      rows_returned := rows_returned, time := nowText }
  let inserted := history_entry :: history
  if 50 < inserted.length then inserted.take 50 else inserted

/-- The initialized Streamlit session state (every key present). -/
structure Session (σ : Type) where
  db_path : Option String
  connection : Option (Conn σ)
  tables : List String
  query_history : List HistoryEntry
  selected_table : Option String
  active_tab : String
  preferences : Preferences
deriving DecidableEq

/-- `session_manager.py::clear_database_state`: best-effort-close the current
connection (`closeResult` is the outcome of `connection.close()`; any raised
error is swallowed by the bare `except: pass`), then reset `db_path`,
`connection`, `tables` and `selected_table`. -/
def clear_database_state (closeResult : Except String Unit) (s : Session σ) : Session σ :=
  match closeResult with
  | .ok _ =>
    { s with db_path := none, connection := none, tables := [], selected_table := none }
  | .error _ =>
    { s with db_path := none, connection := none, tables := [], selected_table := none }

/-- The raw Streamlit session state before initialization: each key may be
absent (`none`) or present with its value. -/
structure RawSession (σ : Type) where
  db_path : Option (Option String)
  connection : Option (Option (Conn σ))
  tables : Option (List String)
  query_history : Option (List HistoryEntry)
  selected_table : Option (Option String)
  active_tab : Option String
  preferences : Option Preferences
deriving DecidableEq

/-- `session_manager.py::init_session_state`: for each key, install its
default only when the key is absent. -/
def init_session_state (s : RawSession σ) : RawSession σ :=
  { db_path := some (s.db_path.getD none),
    connection := some (s.connection.getD none),
    tables := some (s.tables.getD []),
    query_history := some (s.query_history.getD []),
    selected_table := some (s.selected_table.getD none),
    active_tab := some (s.active_tab.getD "explorer"),
    preferences := some (s.preferences.getD defaultPreferences) }

/-- The environment of one call to `handle_uploaded_file`: the outcome of
persisting the uploaded bytes to a fresh temporary file (`NamedTemporaryFile`
plus `write`), the outcome of `connect_to_database` at a given path, the
outcome of the old connection's `close()` inside `clear_database_state`, and
the `get_table_list` result for the new connection. -/
structure UploadEnv (σ : Type) where
  persistUpload : Except String String
  connect_to_database : String → Except String (Conn σ)
  closeResult : Except String Unit
  table_list : Conn σ → List String

/-- `modules/file_uploader.py::handle_uploaded_file`: persist the bytes to a
temporary path; if that path differs from the current `db_path`, first call
`clear_database_state`, then connect, then install the new connection, path
and table list and return `True`. Any raised error (persisting or connecting)
is caught by the surrounding `try`, reported, and `False` returned — but note
the clear has already happened by the time `connect_to_database` runs. -/
def handle_uploaded_file (env : UploadEnv σ) (s : Session σ) : Bool × Session σ :=
  match env.persistUpload with
  | .error _ => (false, s)
  | .ok tmp_path =>
    if s.db_path ≠ some tmp_path then
      let s1 := clear_database_state env.closeResult s
      match env.connect_to_database tmp_path with
      | .error _ => (false, s1)
      | .ok conn =>
        (true, { s1 with connection := some conn, db_path := some tmp_path,
                         tables := env.table_list conn })
    else (false, s)

/-- What one run of `modules/sql_editor.py::execute_sql_query` leaves behind:
the connection, the query history, and the message surfaced to the user. -/
structure SqlEditorOutcome (σ : Type) where
  conn : Conn σ
  history : List HistoryEntry
  message : String

/-- `modules/sql_editor.py::execute_sql_query`: warn on blank input; else run
the query through the gateway; on success record a successful history entry
with the frame's row count; on failure record a failed entry with zero rows
and surface `Query Error: ...` — the raised error never escapes. -/
def execute_sql_query (e : Engine σ) (now : Nat) (nowText : String)
    (conn : Conn σ) (history : List HistoryEntry) (query : String) :
    SqlEditorOutcome σ :=
  if (pyStrip query).data.isEmpty then
    { conn := conn, history := history, message := "Please enter a SQL query first." }
  else
    match execute_query e conn query with
    | .ok (result_df, conn2) =>
      let rows_returned := result_df.rows.length
      { conn := conn2,
        history := add_to_query_history now nowText history query true rows_returned,
        message := "Query executed successfully!" }
    | .error msg =>
      { conn := conn,
        history := add_to_query_history now nowText history query false 0,
        message := "Query Error: " ++ msg }

/-- The pandas export encoders (`to_csv`, `to_json`, `to_excel`): opaque pure
transforms of a table frame. -/
structure Formatters where
  to_csv : DataFrame → String
  to_json : DataFrame → String
  to_excel : DataFrame → String

/-- What an export hands to `st.download_button`. -/
structure ExportPayload where
  data : String
  file_name : String
  mime : String
deriving DecidableEq

/-- `modules/exporter.py::export_table_data`: run `SELECT * FROM {table}`
through the gateway, bail out on error or an empty frame, otherwise encode in
the chosen format and offer `{table}.{ext}` for download. -/
def export_table_data (fm : Formatters) (e : Engine σ) (conn : Conn σ)
    (table_name : String) (format : String) : Option ExportPayload :=
  match execute_query e conn ("SELECT * FROM " ++ table_name) with
  | .error _ => none
  | .ok (df, _) =>
    if df.rows.isEmpty then none
    else if format == "CSV" then
      some { data := fm.to_csv df, file_name := table_name ++ ".csv", mime := "text/csv" }
    else if format == "JSON" then
      some { data := fm.to_json df, file_name := table_name ++ ".json",
             mime := "application/json" }
    else if format == "Excel" then
      some { data := fm.to_excel df, file_name := table_name ++ ".xlsx",
             mime := "application/vnd.openxmlformats-officedocument.spreadsheetml.sheet" }
    else none

/-- `modules/exporter.py::export_query_results`: run the given query through
the gateway, bail out on error or an empty frame, otherwise encode in the
chosen format and offer `query_results.{ext}` for download. -/
def export_query_results (fm : Formatters) (e : Engine σ) (conn : Conn σ)
    (query : String) (format : String) : Option ExportPayload :=
  match execute_query e conn query with
  | .error _ => none
  | .ok (df, _) =>
    if df.rows.isEmpty then none
    else if format == "CSV" then
      some { data := fm.to_csv df, file_name := "query_results.csv", mime := "text/csv" }
    else if format == "JSON" then
      some { data := fm.to_json df, file_name := "query_results.json",
             mime := "application/json" }
    else if format == "Excel" then
      some { data := fm.to_excel df, file_name := "query_results.xlsx",
             mime := "application/vnd.openxmlformats-officedocument.spreadsheetml.sheet" }
    else none

/-- After any `add_to_query_history` call the history holds at most 50
entries. -/
theorem add_to_query_history_length_le
    (now : Nat) (nowText : String) (history : List HistoryEntry)
    (query : String) (success : Bool) (rows_returned : Nat) :
    (add_to_query_history now nowText history query success rows_returned).length ≤ 50 := by
  simp only [add_to_query_history]
  split
  · exact List.length_take_le 50 _
  · next h =>
    simp only [List.length_cons, not_lt] at h ⊢
    omega

/-- The entry just inserted by `add_to_query_history` sits at index 0. -/
theorem add_to_query_history_head
    (now : Nat) (nowText : String) (history : List HistoryEntry)
    (query : String) (success : Bool) (rows_returned : Nat) :
    (add_to_query_history now nowText history query success rows_returned).head? =
      some { query := query, timestamp := now, success := success,
             rows_returned := rows_returned, time := nowText } := by
  simp only [add_to_query_history]
  split
  · rw [show (50 : Nat) = 49 + 1 from rfl, List.take_succ_cons]
    rfl
  · rfl

/-- C2: for every prior `query_history` list and every call to
`add_to_query_history`, the resulting history has length at most 50 and the
entry just inserted is at index 0 (most-recent-first; insertion at the front,
overflow truncates the tail). -/
theorem add_to_query_history_bounded_front
    (now : Nat) (nowText : String) (history : List HistoryEntry)
    (query : String) (success : Bool) (rows_returned : Nat) :
    (add_to_query_history now nowText history query success rows_returned).length ≤ 50 ∧
    (add_to_query_history now nowText history query success rows_returned).head? =
      some { query := query, timestamp := now, success := success,
             rows_returned := rows_returned, time := nowText } :=
  ⟨add_to_query_history_length_le now nowText history query success rows_returned,
   add_to_query_history_head now nowText history query success rows_returned⟩

/-- Whatever `connection.close()` does, `clear_database_state` resets exactly
the four database fields. -/
theorem clear_database_state_eq (σ : Type) (closeResult : Except String Unit)
    (s : Session σ) :
    clear_database_state closeResult s =
      { s with db_path := none, connection := none, tables := [],
               selected_table := none } := by
  cases closeResult <;> rfl

/-- C4: `clear_database_state` best-effort-closes the current handle (the
result is the same whatever `connection.close()` does), clears `db_path`,
`connection`, `tables` and `selected_table`, and leaves `query_history`,
`preferences` and `active_tab` unchanged. -/
theorem clear_database_state_frame (σ : Type) (closeResult : Except String Unit)
    (s : Session σ) :
    (clear_database_state closeResult s).db_path = none ∧
    (clear_database_state closeResult s).connection = none ∧
    (clear_database_state closeResult s).tables = [] ∧
    (clear_database_state closeResult s).selected_table = none ∧
    (clear_database_state closeResult s).query_history = s.query_history ∧
    (clear_database_state closeResult s).preferences = s.preferences ∧
    (clear_database_state closeResult s).active_tab = s.active_tab ∧
    ∀ other : Except String Unit,
      clear_database_state other s = clear_database_state closeResult s := by
  cases closeResult <;>
    refine ⟨rfl, rfl, rfl, rfl, rfl, rfl, rfl, fun other => ?_⟩ <;>
    cases other <;> rfl

/-- C8: `init_session_state` is idempotent — it sets each field to its
default only if that field is currently absent and leaves every present field
unchanged, so calling it again on an initialized state changes nothing. -/
theorem init_session_state_idempotent (σ : Type) (s : RawSession σ) :
    init_session_state (init_session_state s) = init_session_state s ∧
    (∀ v, s.db_path = some v → (init_session_state s).db_path = some v) ∧
    (∀ v, s.connection = some v → (init_session_state s).connection = some v) ∧
    (∀ v, s.tables = some v → (init_session_state s).tables = some v) ∧
    (∀ v, s.query_history = some v → (init_session_state s).query_history = some v) ∧
    (∀ v, s.selected_table = some v → (init_session_state s).selected_table = some v) ∧
    (∀ v, s.active_tab = some v → (init_session_state s).active_tab = some v) ∧
    (∀ v, s.preferences = some v → (init_session_state s).preferences = some v) := by
  refine ⟨by simp [init_session_state], ?_, ?_, ?_, ?_, ?_, ?_, ?_⟩ <;>
    exact fun v h => by simp [init_session_state, h]

/-- A concrete partially-initialized raw session used to witness C8. -/
def c8_raw : RawSession Nat :=
  { db_path := some (some "/tmp/a.db"), connection := none, tables := some ["users"],
    query_history := none, selected_table := some none, active_tab := some "sql",
    preferences := none }

/-- Witness for C8 at a concrete partially-initialized session. -/
theorem init_session_state_idempotent_witness :
    init_session_state (init_session_state c8_raw) = init_session_state c8_raw ∧
    (init_session_state c8_raw).db_path = some (some "/tmp/a.db") ∧
    (init_session_state c8_raw).active_tab = some "sql" :=
  ⟨(init_session_state_idempotent Nat c8_raw).1,
   (init_session_state_idempotent Nat c8_raw).2.1 (some "/tmp/a.db") rfl,
   (init_session_state_idempotent Nat c8_raw).2.2.2.2.2.2.1 "sql" rfl⟩

/-- Dict subscript access `preferences['rows_per_page']` as used by
`render_data_preview` (the stored value is an int there). -/
def prefIntValue (prefs : Preferences) (key : String) : Int :=
  match prefsGet prefs key with
  | some (.int n) => n
  | _ => 0

/-- `modules/db_explorer.py::render_data_preview`: preview the table with
`limit` drawn from `preferences['rows_per_page']`. -/
def render_data_preview (e : Engine σ) (conn : Conn σ) (prefs : Preferences)
    (table_name : String) : Except String DataFrame :=
  get_table_preview e conn table_name (prefIntValue prefs "rows_per_page")

/-- Setting a key that is present makes the lookup of that key return the new
value. -/
theorem prefsGet_prefsSet_self (prefs : Preferences) (key : String) (value : PrefValue)
    (h : prefsContains prefs key = true) :
    prefsGet (prefsSet prefs key value) key = some value := by
  induction prefs with
  | nil => simp [prefsContains] at h
  | cons kv rest ih =>
    simp only [prefsSet]
    by_cases hk : (kv.1 == key) = true
    · rw [if_pos hk]
      unfold prefsGet
      rw [List.find?_cons_of_pos _ (by simp)]
      rfl
    · have h2 : prefsContains rest key = true := by
        simp only [prefsContains, List.any_cons, Bool.or_eq_true] at h
        rcases h with h | h
        · exact absurd h hk
        · simpa [prefsContains] using h
      rw [if_neg hk]
      unfold prefsGet
      rw [List.find?_cons_of_neg _ (by simpa using hk)]
      exact ih h2

/-- C3: `update_preference` succeeds iff the key is already known; for a
known key the mapping is updated (and a fresh `rows_per_page` of 250 is
reflected in the row limit of the next `render_data_preview` call); for an
unknown key it reports failure and changes nothing. -/
theorem update_preference_spec :
    (∀ (prefs : Preferences) (key : String) (value : PrefValue),
        (update_preference prefs key value).1 = true ↔ prefsContains prefs key = true) ∧
    (∀ (prefs : Preferences) (key : String) (value : PrefValue),
        prefsContains prefs key = true →
          (update_preference prefs key value).1 = true ∧
          prefsGet (update_preference prefs key value).2 key = some value) ∧
    (∀ (prefs : Preferences) (key : String) (value : PrefValue),
        prefsContains prefs key = false →
          update_preference prefs key value = (false, prefs)) ∧
    ((update_preference defaultPreferences "rows_per_page" (.int 250)).1 = true) ∧
    (∀ (σ : Type) (e : Engine σ) (conn : Conn σ),
        render_data_preview e conn
            (update_preference defaultPreferences "rows_per_page" (.int 250)).2 "users" =
          get_table_preview e conn "users" 250) ∧
    (update_preference defaultPreferences "bogus_key" (.int 1) = (false, defaultPreferences)) := by
  refine ⟨?_, ?_, ?_, by decide, ?_, by decide⟩
  · intro prefs key value
    unfold update_preference
    by_cases h : prefsContains prefs key = true <;> simp [h]
  · intro prefs key value h
    refine ⟨by simp [update_preference, h], ?_⟩
    simpa [update_preference, h] using prefsGet_prefsSet_self prefs key value h
  · intro prefs key value h
    simp [update_preference, h]
  · intro σ e conn
    have h : prefIntValue
        (update_preference defaultPreferences "rows_per_page" (.int 250)).2
        "rows_per_page" = 250 := by decide
    unfold render_data_preview
    rw [h]

/-- Witness for C3: updating the known key `theme` succeeds and is reflected
in the mapping; updating an unknown key is rejected without change. -/
theorem update_preference_spec_witness :
    ((update_preference defaultPreferences "theme" (.str "dark")).1 = true ∧
      prefsGet (update_preference defaultPreferences "theme" (.str "dark")).2 "theme" =
        some (.str "dark")) ∧
    update_preference defaultPreferences "bogus_key2" (.int 1) = (false, defaultPreferences) :=
  ⟨update_preference_spec.2.1 defaultPreferences "theme" (.str "dark") (by decide),
   update_preference_spec.2.2.1 defaultPreferences "bogus_key2" (.int 1) (by decide)⟩

/-- A statement whose first keyword is `SELECT` passes the gateway's
`startswith('SELECT')` check on the stripped, uppercased text. -/
theorem startswith_of_firstKeyword_select (query : String)
    (h : firstKeyword query = "SELECT") :
    pyStartswith (pyUpper (pyStrip query)) "SELECT" = true := by
  have hd : ((pyUpper (pyStrip query)).data.takeWhile Char.isAlpha) = "SELECT".data := by
    simpa [firstKeyword] using congrArg String.data h
  have hp : "SELECT".data <+: (pyUpper (pyStrip query)).data := by
    rw [← hd]
    exact List.takeWhile_prefix _
  simpa [pyStartswith] using List.isPrefixOf_iff_prefix.mpr hp

/-- C5: a statement whose first keyword (after stripping whitespace, ignoring
case) is `SELECT` is executed through the pandas read path: the gateway
returns the backend's full result frame untouched (no row limit of its own)
with the connection unchanged (no commit, no mutation); a read failure is
surfaced as the gateway's error. -/
theorem execute_query_select_read_path (σ : Type) (e : Engine σ) (conn : Conn σ)
    (query : String) (h : firstKeyword query = "SELECT") :
    (∀ df : DataFrame, e.read_sql_query conn.uncommitted query = .ok df →
        execute_query e conn query = .ok (df, conn)) ∧
    (∀ msg : String, e.read_sql_query conn.uncommitted query = .error msg →
        execute_query e conn query = .error ("Error executing query: " ++ msg)) := by
  have hs := startswith_of_firstKeyword_select query h
  constructor
  · intro df hdf
    simp [execute_query, hs, hdf]
  · intro msg hmsg
    simp [execute_query, hs, hmsg]

/-- A concrete backend whose reads return a fixed two-row frame. -/
def c5_engine : Engine Nat :=
  { read_sql_query := fun _ _ => .ok ⟨["name"], [[.str "alice"], [.str "bob"]]⟩,
    cursor_execute := fun s _ => .ok (s + 1, 1) }

/-- Witness for C5: a lowercase padded `select` returns the backend's frame
with the connection (and hence the committed state) unchanged. -/
theorem execute_query_select_read_path_witness :
    execute_query c5_engine ⟨0, 0⟩ "  select name from users  " =
      .ok (⟨["name"], [[.str "alice"], [.str "bob"]]⟩, (⟨0, 0⟩ : Conn Nat)) :=
  (execute_query_select_read_path Nat c5_engine ⟨0, 0⟩ "  select name from users  "
      (by decide)).1 _ rfl

/-- C6: a statement that fails the `SELECT` dispatch check and executes
successfully is committed before the gateway returns (the returned connection
carries the post-statement state as its committed view) and yields a
one-row, one-column frame holding the affected-row count when the backend's
rowcount is non-negative, or the generic success string otherwise. -/
theorem execute_query_write_path (σ : Type) (e : Engine σ) (conn : Conn σ)
    (query : String) (s2 : σ) (rowcount : Int)
    (h1 : pyStartswith (pyUpper (pyStrip query)) "SELECT" = false)
    (h2 : e.cursor_execute conn.uncommitted query = .ok (s2, rowcount)) :
    ∃ df : DataFrame,
      execute_query e conn query = .ok (df, ⟨s2, s2⟩) ∧
      df.columns = ["message"] ∧
      df.rows.length = 1 ∧
      (∀ row ∈ df.rows, row.length = 1) ∧
      (0 ≤ rowcount →
        df.rows =
          [[.str ("Query executed successfully. Rows affected: " ++ toString rowcount)]]) ∧
      (rowcount < 0 → df.rows = [[.str "Query executed successfully."]]) := by
  by_cases hrc : 0 ≤ rowcount
  · refine ⟨⟨["message"],
        [[.str ("Query executed successfully. Rows affected: " ++ toString rowcount)]]⟩,
      ?_, rfl, rfl, ?_, fun _ => rfl, fun hlt => absurd hrc (not_le.mpr hlt)⟩
    · simp [execute_query, h1, h2, hrc]
    · intro row hrow
      simp only [List.mem_singleton] at hrow
      subst hrow
      rfl
  · refine ⟨⟨["message"], [[.str "Query executed successfully."]]⟩,
      ?_, rfl, rfl, ?_, fun hle => absurd hle hrc, fun _ => rfl⟩
    · simp [execute_query, h1, h2, hrc]
    · intro row hrow
      simp only [List.mem_singleton] at hrow
      subst hrow
      rfl

/-- A concrete backend whose writes bump the data state and report 3 affected
rows. -/
def c6_engine : Engine Nat :=
  { read_sql_query := fun _ _ => .error "not a select",
    cursor_execute := fun s _ => .ok (s + 1, 3) }

/-- Witness for C6: a DELETE statement commits (committed view becomes the
post-statement state) and returns the one-cell affected-rows frame. -/
theorem execute_query_write_path_witness :
    ∃ df : DataFrame,
      execute_query c6_engine ⟨0, 0⟩ "DELETE FROM users" = .ok (df, (⟨1, 1⟩ : Conn Nat)) ∧
      df.columns = ["message"] ∧
      df.rows.length = 1 ∧
      (∀ row ∈ df.rows, row.length = 1) ∧
      (0 ≤ (3 : Int) →
        df.rows = [[.str ("Query executed successfully. Rows affected: " ++ toString (3 : Int))]]) ∧
      ((3 : Int) < 0 → df.rows = [[.str "Query executed successfully."]]) :=
  execute_query_write_path Nat c6_engine ⟨0, 0⟩ "DELETE FROM users" 1 3 (by decide) rfl

/-- C7: when a non-blank query raises through the gateway, the failure is
still recorded at the front of `query_history` as an unsuccessful entry with
zero rows, the error is converted to a user-visible message rather than
escaping, and the connection is left as it was. -/
theorem execute_sql_query_failure_recorded (σ : Type) (e : Engine σ) (now : Nat)
    (nowText : String) (conn : Conn σ) (history : List HistoryEntry) (query msg : String)
    (h1 : (pyStrip query).data.isEmpty = false)
    (h2 : execute_query e conn query = .error msg) :
    (execute_sql_query e now nowText conn history query).history.head? =
      some { query := query, timestamp := now, success := false,
             rows_returned := 0, time := nowText } ∧
    (execute_sql_query e now nowText conn history query).history.length ≤ 50 ∧
    (execute_sql_query e now nowText conn history query).message = "Query Error: " ++ msg ∧
    (execute_sql_query e now nowText conn history query).conn = conn := by
  have hout : execute_sql_query e now nowText conn history query =
      { conn := conn,
        history := add_to_query_history now nowText history query false 0,
        message := "Query Error: " ++ msg } := by
    simp [execute_sql_query, h1, h2]
  rw [hout]
  exact ⟨add_to_query_history_head now nowText history query false 0,
         add_to_query_history_length_le now nowText history query false 0, rfl, rfl⟩

/-- A concrete backend on which every statement raises. -/
def c7_engine : Engine Nat :=
  { read_sql_query := fun _ _ => .error "no such table: missing",
    cursor_execute := fun _ _ => .error "no such table: missing" }

/-- Witness for C7: a failing DELETE is logged as an unsuccessful zero-row
entry at index 0 and surfaced as a `Query Error` message. -/
theorem execute_sql_query_failure_recorded_witness :
    (execute_sql_query c7_engine 1700000000 "12:00:00" ⟨0, 0⟩ [] "DELETE FROM missing").history.head? =
      some { query := "DELETE FROM missing", timestamp := 1700000000, success := false,
             rows_returned := 0, time := "12:00:00" } ∧
    (execute_sql_query c7_engine 1700000000 "12:00:00" ⟨0, 0⟩ [] "DELETE FROM missing").history.length ≤ 50 ∧
    (execute_sql_query c7_engine 1700000000 "12:00:00" ⟨0, 0⟩ [] "DELETE FROM missing").message =
      "Query Error: " ++ "Error executing query: no such table: missing" ∧
    (execute_sql_query c7_engine 1700000000 "12:00:00" ⟨0, 0⟩ [] "DELETE FROM missing").conn = ⟨0, 0⟩ :=
  execute_sql_query_failure_recorded Nat c7_engine 1700000000 "12:00:00" ⟨0, 0⟩ []
    "DELETE FROM missing" "Error executing query: no such table: missing" (by decide) rfl

/-- The session in place before a failing upload: an open handle on an old
database with a table selected. -/
def c1_session : Session Nat :=
  { db_path := some "/tmp/old.db", connection := some ⟨5, 5⟩, tables := ["users"],
    query_history := [], selected_table := some "users", active_tab := "explorer",
    preferences := defaultPreferences }

/-- An upload whose bytes persist to a fresh temporary path but whose connect
raises (e.g. the bytes are not a database container). -/
def c1_env : UploadEnv Nat :=
  { persistUpload := .ok "/tmp/new.db",
    connect_to_database := fun _ => .error "file is not a database",
    closeResult := .ok (),
    table_list := fun _ => [] }

/-- Counterexample to C1 as stated: when the connect on the persisted path
raises, the flow does report failure, but the session state is NOT left as it
was before the call — the old handle, path, table list and selection have
already been cleared, because the reset runs before the connect, not after. -/
theorem handle_uploaded_file_not_intact_counterexample :
    (handle_uploaded_file c1_env c1_session).1 = false ∧
    (handle_uploaded_file c1_env c1_session).2 ≠ c1_session ∧
    (handle_uploaded_file c1_env c1_session).2.db_path = none ∧
    (handle_uploaded_file c1_env c1_session).2.connection = none := by
  refine ⟨by decide, by decide, by decide, by decide⟩

/-- C1 amended: if the persisted path differs from the current `db_path` and
the connect operation on it raises, the flow reports failure, but by then the
database-related state has already been reset (the clear runs before the
connect): handle, path, table list and selection are empty, while
`query_history` and `preferences` survive. -/
theorem handle_uploaded_file_connect_failure (σ : Type) (env : UploadEnv σ)
    (s : Session σ) (tmp_path msg : String)
    (hpersist : env.persistUpload = .ok tmp_path)
    (hnew : s.db_path ≠ some tmp_path)
    (hconn : env.connect_to_database tmp_path = .error msg) :
    (handle_uploaded_file env s).1 = false ∧
    (handle_uploaded_file env s).2 = clear_database_state env.closeResult s ∧
    (handle_uploaded_file env s).2.db_path = none ∧
    (handle_uploaded_file env s).2.connection = none ∧
    (handle_uploaded_file env s).2.tables = [] ∧
    (handle_uploaded_file env s).2.selected_table = none ∧
    (handle_uploaded_file env s).2.query_history = s.query_history ∧
    (handle_uploaded_file env s).2.preferences = s.preferences := by
  have hout : handle_uploaded_file env s =
      (false, clear_database_state env.closeResult s) := by
    simp [handle_uploaded_file, hpersist, hnew, hconn]
  rw [hout, clear_database_state_eq]
  exact ⟨rfl, rfl, rfl, rfl, rfl, rfl, rfl, rfl⟩

/-- Witness for the amended C1 at the concrete failing upload. -/
theorem handle_uploaded_file_connect_failure_witness :
    (handle_uploaded_file c1_env c1_session).1 = false ∧
    (handle_uploaded_file c1_env c1_session).2 =
      clear_database_state c1_env.closeResult c1_session ∧
    (handle_uploaded_file c1_env c1_session).2.db_path = none ∧
    (handle_uploaded_file c1_env c1_session).2.connection = none ∧
    (handle_uploaded_file c1_env c1_session).2.tables = [] ∧
    (handle_uploaded_file c1_env c1_session).2.selected_table = none ∧
    (handle_uploaded_file c1_env c1_session).2.query_history = c1_session.query_history ∧
    (handle_uploaded_file c1_env c1_session).2.preferences = c1_session.preferences :=
  handle_uploaded_file_connect_failure Nat c1_env c1_session "/tmp/new.db"
    "file is not a database" rfl (by decide) rfl

/-- C9: for a table in the session's table list, exporting the table and
exporting the results of `SELECT * FROM <that table>` run the same statement
through the gateway and hand the same encoded bytes to the download (only the
suggested file name differs), for each supported format. -/
theorem export_table_eq_export_query (σ : Type) (fm : Formatters) (e : Engine σ)
    (conn : Conn σ) (tables : List String) (table_name format : String)
    (_htab : table_name ∈ tables)
    (_hfmt : format ∈ ["CSV", "JSON", "Excel"]) :
    (export_table_data fm e conn table_name format).map ExportPayload.data =
      (export_query_results fm e conn ("SELECT * FROM " ++ table_name) format).map
        ExportPayload.data := by
  simp only [export_table_data, export_query_results]
  cases hq : execute_query e conn ("SELECT * FROM " ++ table_name) with
  | error msg => rfl
  | ok p =>
    obtain ⟨df, conn2⟩ := p
    by_cases hempty : df.rows.isEmpty = true
    · simp [hempty]
    · split_ifs <;> simp [hempty]

/-- Concrete pandas encoders for the C9 witness. -/
def c9_formatters : Formatters :=
  { to_csv := fun df => "csv rows " ++ toString df.rows.length,
    to_json := fun df => "json rows " ++ toString df.rows.length,
    to_excel := fun df => "xlsx rows " ++ toString df.rows.length }

/-- A concrete backend returning one data row for every read. -/
def c9_engine : Engine Nat :=
  { read_sql_query := fun _ _ => .ok ⟨["id"], [[.int 1]]⟩,
    cursor_execute := fun s _ => .ok (s, 0) }

/-- Witness for C9 at a concrete table, engine and format. -/
theorem export_table_eq_export_query_witness :
    (export_table_data c9_formatters c9_engine ⟨0, 0⟩ "users" "CSV").map ExportPayload.data =
      (export_query_results c9_formatters c9_engine ⟨0, 0⟩
          ("SELECT * FROM " ++ "users") "CSV").map ExportPayload.data :=
  export_table_eq_export_query Nat c9_formatters c9_engine ⟨0, 0⟩ ["users"] "users" "CSV"
    (by decide) (by decide)

/-- A name reserved by sqlite's internal catalog (lowercased prefix
`sqlite_`) matches the `LIKE 'sqlite_%'` filter. -/
theorem likeSqliteInternal_of_reserved (name : String)
    (h : "sqlite_".data.isPrefixOf (name.data.map Char.toLower) = true) :
    likeSqliteInternal name = true := by
  have hp : "sqlite_".data <+: name.data.map Char.toLower :=
    List.isPrefixOf_iff_prefix.mp h
  have h6 : "sqlite".data <+: name.data.map Char.toLower := by
    refine List.IsPrefix.trans ⟨['_'], rfl⟩ hp
  have hlen : 7 ≤ name.data.length := by
    have h1 := hp.length_le
    rw [List.length_map] at h1
    have h2 : "sqlite_".data.length = 7 := rfl
    omega
  have hlen2 : 7 ≤ name.length := hlen
  simp [likeSqliteInternal, List.isPrefixOf_iff_prefix.mpr h6, hlen, hlen2]

/-- C10: `get_table_list` never raises — a failed catalog lookup yields the
empty list, indistinguishable from a database with no tables — and a
successful lookup yields exactly the non-internal table names, sorted
ascending, with every catalog-reserved name excluded. -/
theorem get_table_list_spec :
    (∀ msg : String, get_table_list (.error msg) = []) ∧
    (∀ msg : String, get_table_list (.error msg) = get_table_list (.ok [])) ∧
    (∀ entries : List MasterEntry,
      List.Sorted (fun a b : String => a ≤ b) (get_table_list (.ok entries)) ∧
      (∀ n : String, n ∈ get_table_list (.ok entries) ↔
        ∃ r ∈ entries, r.name = n ∧ r.type = "table" ∧ likeSqliteInternal n = false) ∧
      (∀ r ∈ entries, "sqlite_".data.isPrefixOf (r.name.data.map Char.toLower) = true →
        r.name ∉ get_table_list (.ok entries))) := by
  have hmem : ∀ (entries : List MasterEntry) (n : String),
      n ∈ get_table_list (.ok entries) ↔
        ∃ r ∈ entries, r.name = n ∧ r.type = "table" ∧ likeSqliteInternal n = false := by
    intro entries n
    show n ∈ sqlite_master_tables entries ↔ _
    unfold sqlite_master_tables
    rw [(List.perm_insertionSort _ _).mem_iff]
    constructor
    · intro hn
      obtain ⟨r, hrf, hname⟩ := List.mem_map.mp hn
      obtain ⟨hrmem, hpred⟩ := List.mem_filter.mp hrf
      rw [Bool.and_eq_true, beq_iff_eq, Bool.not_eq_true'] at hpred
      exact ⟨r, hrmem, hname, hpred.1, hname ▸ hpred.2⟩
    · rintro ⟨r, hrmem, hname, htype, hlike⟩
      refine List.mem_map.mpr ⟨r, List.mem_filter.mpr ⟨hrmem, ?_⟩, hname⟩
      rw [Bool.and_eq_true, beq_iff_eq, Bool.not_eq_true']
      exact ⟨htype, hname ▸ hlike⟩
  refine ⟨fun _ => rfl, fun _ => rfl, fun entries => ⟨?_, hmem entries, ?_⟩⟩
  · show List.Sorted _ (sqlite_master_tables entries)
    unfold sqlite_master_tables
    exact List.sorted_insertionSort _ _
  · intro r hrmem hres hmem2
    obtain ⟨r2, _, _, _, hlike⟩ := (hmem entries r.name).mp hmem2
    simp [likeSqliteInternal_of_reserved r.name hres] at hlike

/-- The `sqlite_master` rows of a small database used to witness C10. -/
def c10_entries : List MasterEntry :=
  [⟨"zebra", "table"⟩, ⟨"apple", "table"⟩, ⟨"sqlite_sequence", "table"⟩,
   ⟨"idx_users", "index"⟩]

/-- Witness for C10: a failed lookup yields `[]`, the internal
`sqlite_sequence` is excluded, and the user table `apple` is returned. -/
theorem get_table_list_spec_witness :
    get_table_list (.error "disk I/O error") = [] ∧
    "sqlite_sequence" ∉ get_table_list (.ok c10_entries) ∧
    "apple" ∈ get_table_list (.ok c10_entries) :=
  ⟨get_table_list_spec.1 "disk I/O error",
   (get_table_list_spec.2.2 c10_entries).2.2 ⟨"sqlite_sequence", "table"⟩ (by decide)
     (by decide),
   ((get_table_list_spec.2.2 c10_entries).2.1 "apple").mpr
     ⟨⟨"apple", "table"⟩, by decide, rfl, rfl, by decide⟩⟩

end SqliteBrowser
